import Mathlib

/-!
Shallow embedding of a URL-shortening / click-tracking web application
(Next.js + better-sqlite3), covering:

* the persistence layer (`src/lib/database.ts`): `links` and `clicks`
  tables with their CRUD and analytics queries, modelled as pure
  functions over an explicit `DBState`;
* the tracking utilities (`src/lib/tracking.ts`): IP geolocation with
  primary/secondary fallback, proxy-header client-IP extraction, and
  referer sanitization;
* the HTTP route handlers (`src/app/api/links/route.ts`,
  `src/app/track/[shortCode]/route.ts`).

Modelling conventions:

* SQL timestamps (`datetime('now')`) are seconds-since-epoch naturals,
  passed in as an explicit `now` parameter.
* Floating point coordinates are modelled as integers (`Int`); no claim
  under verification depends on their numeric values, only on nullness.
  JavaScript falsiness of the number 0 is preserved where the source
  uses `x ? ... : null` / `x || null` on a number.
* Outbound HTTP to the two geolocation services is modelled by an
  oracle (`GeoOracle`) holding the outcome of each service; the
  resolver additionally returns the number of outbound calls performed.
* Exceptions thrown inside the tracking handler's `try` block are
  modelled by a `TrackFault` oracle; the database state visible to the
  `catch` block is a parameter of the fault, since the two tracking
  writes are not transactionally coupled.
* The WHATWG `URL` platform class (used by `sanitizeReferer` and by
  zod's `.url()` validator) is modelled for `scheme://host/path?query#hash`
  shaped inputs: parse failure for strings without a `://`-terminated
  scheme or with an empty host, query-string removal, trailing-slash
  normalization of an empty path.
-/

/-- A row of the `links` table. -/
structure Link where
  id : String
  name : String
  original_url : String
  short_code : String
  created_at : Nat
  click_count : Nat
deriving DecidableEq, Repr

/-- A row of the `clicks` table. -/
structure Click where
  id : Nat
  link_id : String
  ip_address : Option String
  country : Option String
  city : Option String
  region : Option String
  latitude : Option Int
  longitude : Option Int
  user_agent : Option String
  referer : Option String
  clicked_at : Nat
deriving DecidableEq, Repr

/-- The `LocationData` interface of `database.ts`: every field
independently nullable. -/
structure LocationData where
  country : Option String
  city : Option String
  region : Option String
  latitude : Option Int
  longitude : Option Int
deriving DecidableEq, Repr

/-- The SQLite database: the two tables plus the AUTOINCREMENT counter
for `clicks.id`. -/
structure DBState where
  links : List Link
  clicks : List Click
  nextClickId : Nat
deriving DecidableEq, Repr

/-! ## Geolocation resolver (`getLocationFromIP`, tracking.ts lines 3-71) -/

/-- Payload of a successful primary-service (`ipapi.co`) response that
carries no `error` field.  `none` models an absent/null JSON field. -/
structure PrimaryPayload where
  country_name : Option String
  city : Option String
  region : Option String
  latitude : Option Int
  longitude : Option Int
deriving DecidableEq, Repr

/-- Outcome of the primary geolocation request. -/
inductive PrimaryResult where
  /-- `fetch` or `response.json()` threw. -/
  | threw : PrimaryResult
  /-- `response.ok` was false (control falls out of the `try` block). -/
  | notOk : PrimaryResult
  /-- Response OK but the payload has a truthy `error` field, so the
  source throws and the `catch` absorbs it. -/
  | okError : PrimaryResult
  /-- Response OK with an error-free payload. -/
  | okData (d : PrimaryPayload) : PrimaryResult
deriving DecidableEq, Repr

/-- Payload of a successful secondary-service (`ip-api.com`) response
with `status = "success"`. -/
structure SecondaryPayload where
  country : Option String
  city : Option String
  regionName : Option String
  lat : Option Int
  lon : Option Int
deriving DecidableEq, Repr

/-- Outcome of the secondary geolocation request. -/
inductive SecondaryResult where
  /-- `fetch` or `response.json()` threw. -/
  | threw : SecondaryResult
  /-- `response.ok` was false. -/
  | notOk : SecondaryResult
  /-- Response OK but `data.status` is not `"success"`. -/
  | okFail : SecondaryResult
  /-- Response OK with `data.status = "success"`. -/
  | okSuccess (d : SecondaryPayload) : SecondaryResult
deriving DecidableEq, Repr

/-- Oracle fixing the outcomes of the two outbound geolocation calls. -/
structure GeoOracle where
  primary : PrimaryResult
  secondary : SecondaryResult
deriving DecidableEq, Repr

/-- JavaScript `s || null` on a nullable string: the empty string is
falsy and collapses to null. -/
def orNullStr (s : Option String) : Option String :=
  match s with
  | some "" => none
  | x => x

/-- JavaScript `x ? x : null` / `x || null` on a nullable number: the
number 0 is falsy and collapses to null. -/
def orNullInt (n : Option Int) : Option Int :=
  match n with
  | some 0 => none
  | x => x

/-- Field mapping applied to a successful primary payload
(tracking.ts lines 30-36). -/
def mapPrimary (d : PrimaryPayload) : LocationData :=
  { country := orNullStr d.country_name
    city := orNullStr d.city
    region := orNullStr d.region
    latitude := orNullInt d.latitude
    longitude := orNullInt d.longitude }

/-- Field mapping applied to a successful secondary payload
(tracking.ts lines 50-56). -/
def mapSecondary (d : SecondaryPayload) : LocationData :=
  { country := orNullStr d.country
    city := orNullStr d.city
    region := orNullStr d.regionName
    latitude := orNullInt d.lat
    longitude := orNullInt d.lon }

/-- JavaScript `String.prototype.startsWith`, over the character
list of the string. -/
def strStartsWith (s p : String) : Bool :=
  p.data.isPrefixOf s.data

/-- The guard of tracking.ts line 5: empty, loopback, or
private-range-by-textual-shape IP strings. -/
def isLocalIP (ip : String) : Bool :=
  ip == "" || ip == "127.0.0.1" || ip == "::1" ||
    strStartsWith ip "192.168." || strStartsWith ip "10." || strStartsWith ip "172."

/-- The "Local" sentinel location (tracking.ts lines 6-12). -/
def localLocation : LocationData :=
  { country := some "Local", city := some "Local", region := some "Local"
    latitude := none, longitude := none }

/-- The "Unknown" sentinel location (tracking.ts lines 64-70). -/
def unknownLocation : LocationData :=
  { country := some "Unknown", city := some "Unknown", region := some "Unknown"
    latitude := none, longitude := none }

/-- `getLocationFromIP` (tracking.ts lines 3-71).  Returns the resolved
location together with the number of outbound service calls performed. -/
def getLocationFromIP (ip : String) (g : GeoOracle) : LocationData × Nat :=
  if isLocalIP ip then
    (localLocation, 0)
  else
    match g.primary with
    | .okData d => (mapPrimary d, 1)
    | _ =>
      match g.secondary with
      | .okSuccess d => (mapSecondary d, 2)
      | _ => (unknownLocation, 2)

/-- A primary attempt that did not produce a mapped result: thrown
error, non-OK response, or reported error field. -/
def primaryFailed (r : PrimaryResult) : Bool :=
  match r with
  | .okData _ => false
  | _ => true

/-- A secondary attempt that did not produce a mapped result. -/
def secondaryFailed (r : SecondaryResult) : Bool :=
  match r with
  | .okSuccess _ => false
  | _ => true

/-! ## Client-IP extraction (`getClientIP` / `isValidIP`, tracking.ts lines 73-107) -/

/-- The fixed priority-ordered proxy-header list (tracking.ts lines 77-84). -/
def possibleHeaders : List String :=
  ["x-forwarded-for", "x-real-ip", "x-client-ip",
   "cf-connecting-ip", "true-client-ip", "x-cluster-client-ip"]

/-- Request headers, as a name-to-value association list.  Fetch-API
header names are case-insensitive; keys here are taken normalized to
lowercase. -/
def headerGet (hdrs : List (String × String)) (name : String) : Option String :=
  (hdrs.find? (fun p => p.1 == name)).map (fun p => p.2)

/-- JavaScript `String.prototype.split` on a single separator
character: `""` splits to `[""]`, separators at the ends produce empty
groups. -/
def splitOnChar (sep : Char) : List Char → List (List Char)
  | [] => [[]]
  | c :: cs =>
    if c = sep then [] :: splitOnChar sep cs
    else
      match splitOnChar sep cs with
      | [] => [[c]]
      | g :: gs => (c :: g) :: gs

/-- JavaScript `String.prototype.trim`: strip leading and trailing
whitespace. -/
def trimChars (cs : List Char) : List Char :=
  ((cs.dropWhile Char.isWhitespace).reverse.dropWhile Char.isWhitespace).reverse

/-- One group of the regex `^(\d{1,3}\.){3}\d{1,3}$`: one to three
decimal digits. -/
def isIPv4Group (g : List Char) : Bool :=
  1 ≤ g.length && g.length ≤ 3 && g.all Char.isDigit

/-- The IPv4 pattern of `isValidIP`: four dot-separated groups of one
to three digits. -/
def isValidIPv4 (s : String) : Bool :=
  let ps := splitOnChar '.' s.data
  ps.length == 4 && ps.all isIPv4Group

/-- A hexadecimal digit, `[0-9a-fA-F]`. -/
def isHexDigitChar (c : Char) : Bool :=
  c.isDigit || ('a' ≤ c && c ≤ 'f') || ('A' ≤ c && c ≤ 'F')

/-- One group of the regex `^([0-9a-fA-F]{1,4}:){7}[0-9a-fA-F]{1,4}$`:
one to four hex digits. -/
def isIPv6Group (g : List Char) : Bool :=
  1 ≤ g.length && g.length ≤ 4 && g.all isHexDigitChar

/-- The strict 8-group IPv6 pattern of `isValidIP`. -/
def isValidIPv6 (s : String) : Bool :=
  let ps := splitOnChar ':' s.data
  ps.length == 8 && ps.all isIPv6Group

/-- `isValidIP` (tracking.ts lines 101-107). -/
def isValidIP (ip : String) : Bool :=
  isValidIPv4 ip || isValidIPv6 ip

/-- `value.split(',')[0].trim()` (tracking.ts line 90). -/
def firstHeaderToken (v : String) : String :=
  String.mk (trimChars ((splitOnChar ',' v.data).headD []))

/-- The header loop of `getClientIP` (tracking.ts lines 86-95):
JavaScript `if (value)` skips both absent and empty-string headers. -/
def getClientIPFrom (hs : List String) (hdrs : List (String × String)) : Option String :=
  match hs with
  | [] => none
  | h :: rest =>
    match headerGet hdrs h with
    | some v =>
      if v ≠ "" then
        (if isValidIP (firstHeaderToken v) then some (firstHeaderToken v)
         else getClientIPFrom rest hdrs)
      else getClientIPFrom rest hdrs
    | none => getClientIPFrom rest hdrs

/-- `getClientIP` (tracking.ts lines 73-99): walk the priority header
list; no fallback to a raw socket address. -/
def getClientIP (hdrs : List (String × String)) : Option String :=
  getClientIPFrom possibleHeaders hdrs

/-- Specification-side restatement of client-IP extraction, following
the spec's words: the first header, in priority order, whose trimmed
first comma-separated token validates, yields that token; otherwise
null. -/
def clientIPSpec (hdrs : List (String × String)) : Option String :=
  possibleHeaders.findSome? (fun h =>
    (headerGet hdrs h).bind (fun v =>
      if isValidIP (firstHeaderToken v) then some (firstHeaderToken v) else none))

/-! ## WHATWG URL model and referer sanitization (tracking.ts lines 153-164) -/

/-- Parsed components of a `scheme://host/path?query#hash` URL. -/
structure URLRec where
  scheme : String
  host : String
  path : String
  search : String
  hash : String
deriving DecidableEq, Repr

/-- Scheme characters after the first: ASCII alphanumeric, `+`, `-`, `.`. -/
def isSchemeChar (c : Char) : Bool :=
  c.isAlphanum || c == '+' || c == '-' || c == '.'

/-- A valid URL scheme: an ASCII letter followed by scheme characters. -/
def validSchemeChars (cs : List Char) : Bool :=
  match cs with
  | [] => false
  | c :: rest => c.isAlpha && rest.all isSchemeChar

/-- Model of the WHATWG `new URL(s)` constructor for absolute
`scheme://...` URLs: fails (throws, modelled as `none`) when the input
has no `://`-terminated valid scheme or when the host is empty;
otherwise splits host / path / search / hash, normalizing an empty path
to `/` and lowercasing scheme and host. -/
def parseURL (s : String) : Option URLRec :=
  let cs := s.data
  let schemeChars := cs.takeWhile (fun c => c ≠ ':')
  if validSchemeChars schemeChars then
    match cs.drop schemeChars.length with
    | ':' :: '/' :: '/' :: rest =>
      let hostChars := rest.takeWhile (fun c => c ≠ '/' && c ≠ '?' && c ≠ '#')
      if hostChars.isEmpty then none
      else
        let afterHost := rest.drop hostChars.length
        let beforeHash := afterHost.takeWhile (fun c => c ≠ '#')
        let hashChars := afterHost.drop beforeHash.length
        let pathChars := beforeHash.takeWhile (fun c => c ≠ '?')
        let searchChars := beforeHash.drop pathChars.length
        some { scheme := String.mk (schemeChars.map Char.toLower)
               host := String.mk (hostChars.map Char.toLower)
               path := if pathChars.isEmpty then "/" else String.mk pathChars
               search := String.mk searchChars
               hash := String.mk hashChars }
    | _ => none
  else none

/-- Model of `url.toString()` serialization. -/
def serializeURL (u : URLRec) : String :=
  u.scheme ++ "://" ++ u.host ++ u.path ++ u.search ++ u.hash

/-- `sanitizeReferer` (tracking.ts lines 153-164): null for an absent
or falsy referer; parse as a URL, clear the query string, serialize;
null when parsing throws. -/
def sanitizeReferer (referer : Option String) : Option String :=
  match referer with
  | none => none
  | some r =>
    if r = "" then none
    else
      match parseURL r with
      | none => none
      | some u => some (serializeURL { u with search := "" })

/-! ## Persistence layer (database.ts) -/

/-- `getLinkById` (database.ts lines 118-122): `SELECT * FROM links
WHERE id = ?` returns the first matching row. -/
def getLinkById (db : DBState) (id : String) : Option Link :=
  db.links.find? (fun l => l.id == id)

/-- `getLinkByShortCode` (database.ts lines 124-128). -/
def getLinkByShortCode (db : DBState) (shortCode : String) : Option Link :=
  db.links.find? (fun l => l.short_code == shortCode)

/-- `updateLinkClickCount` (database.ts lines 130-134): `UPDATE links
SET click_count = click_count + 1 WHERE id = ?`. -/
def updateLinkClickCount (db : DBState) (linkId : String) : DBState :=
  { db with
    links := db.links.map (fun l =>
      if l.id == linkId then { l with click_count := l.click_count + 1 } else l) }

/-- `createLink` (database.ts lines 96-110), with the two `nanoid`
draws supplied by an oracle.  The `INSERT` throws (modelled as
`Except.error`) when the `id` PRIMARY KEY or the `short_code` UNIQUE
constraint is violated; otherwise the inserted row is re-read and
returned. -/
def createLink (db : DBState) (name originalUrl : String) (genId genShort : String)
    (now : Nat) : Except Unit (Link × DBState) :=
  if db.links.any (fun l => l.id == genId || l.short_code == genShort) then
    .error ()
  else
    let link : Link :=
      { id := genId, name := name, original_url := originalUrl,
        short_code := genShort, created_at := now, click_count := 0 }
    .ok (link, { db with links := db.links ++ [link] })

/-- `deleteLink` (database.ts lines 136-148): delete the link's clicks
first, then the link row; report whether a link row was removed
(`result.changes > 0`). -/
def deleteLink (db : DBState) (id : String) : Bool × DBState :=
  let existed := db.links.any (fun l => l.id == id)
  (existed,
   { db with
     clicks := db.clicks.filter (fun c => c.link_id != id)
     links := db.links.filter (fun l => l.id != id) })

/-- `recordClick` (database.ts lines 151-181): insert one click row,
then bump the link's denormalized counter. -/
def recordClick (db : DBState) (linkId : String) (ipAddress : Option String)
    (locationData : LocationData) (userAgent referer : Option String)
    (now : Nat) : DBState :=
  let c : Click :=
    { id := db.nextClickId, link_id := linkId, ip_address := ipAddress
      country := locationData.country, city := locationData.city
      region := locationData.region, latitude := locationData.latitude
      longitude := locationData.longitude, user_agent := userAgent
      referer := referer, clicked_at := now }
  updateLinkClickCount
    { db with clicks := db.clicks ++ [c], nextClickId := db.nextClickId + 1 }
    linkId

/-- `ORDER BY clicked_at DESC`. -/
def clickDesc (a b : Click) : Prop :=
  b.clicked_at ≤ a.clicked_at

instance : DecidableRel clickDesc :=
  fun a b => Nat.decLe b.clicked_at a.clicked_at

/-- `getClicksByLinkId` (database.ts lines 183-187). -/
def getClicksByLinkId (db : DBState) (linkId : String) : List Click :=
  List.insertionSort clickDesc (db.clicks.filter (fun c => c.link_id == linkId))

/-- `getAllClicks` (database.ts lines 189-193). -/
def getAllClicks (db : DBState) : List Click :=
  List.insertionSort clickDesc db.clicks

/-! ## Analytics aggregation (database.ts lines 196-269) -/

/-- `GROUP BY` a key list and count, `ORDER BY count DESC`. -/
def groupCountsDesc {α : Type} [DecidableEq α] (keys : List α) : List (α × Nat) :=
  List.insertionSort (fun p q : α × Nat => q.2 ≤ p.2)
    (keys.dedup.map (fun k => (k, keys.count k)))

/-- The per-link country aggregation (database.ts lines 202-208):
non-null countries only. -/
def countryStats (db : DBState) (linkId : String) : List (String × Nat) :=
  groupCountsDesc
    ((db.clicks.filter (fun c => c.link_id == linkId)).filterMap (fun c => c.country))

/-- The per-link (city, country) aggregation (database.ts lines
211-218): non-null city only, top 10. -/
def cityStats (db : DBState) (linkId : String) : List ((String × Option String) × Nat) :=
  (groupCountsDesc
    ((db.clicks.filter (fun c => c.link_id == linkId)).filterMap
      (fun c => c.city.map (fun ci => (ci, c.country))))).take 10

/-- Seconds in one day. -/
def daySeconds : Nat := 86400

/-- The per-link daily aggregation over the trailing 30 days (database.ts
lines 221-229): calendar date modelled as `clicked_at / daySeconds`,
ascending by date. -/
def dailyStats (db : DBState) (now : Nat) (linkId : String) : List (Nat × Nat) :=
  let days := (db.clicks.filter (fun c =>
    c.link_id == linkId && now - 30 * daySeconds ≤ c.clicked_at)).map
      (fun c => c.clicked_at / daySeconds)
  List.insertionSort (fun p q : Nat × Nat => p.1 ≤ q.1)
    (days.dedup.map (fun d => (d, days.count d)))

/-- Result record of `getLinkAnalytics`. -/
structure LinkAnalytics where
  totalClicks : Nat
  clicks : List Click
  countryStats : List (String × Nat)
  cityStats : List ((String × Option String) × Nat)
  dailyStats : List (Nat × Nat)
deriving DecidableEq, Repr

/-- `getLinkAnalytics` (database.ts lines 196-238): `totalClicks` is
the length of the fetched click list, not the denormalized counter. -/
def getLinkAnalytics (db : DBState) (now : Nat) (linkId : String) : LinkAnalytics :=
  let clicks := getClicksByLinkId db linkId
  { totalClicks := clicks.length
    clicks := clicks
    countryStats := countryStats db linkId
    cityStats := cityStats db linkId
    dailyStats := dailyStats db now linkId }

/-- `datetime('now', '-7 days')` window width. -/
def recentWindow : Nat := 7 * daySeconds

/-- The `recent_clicks` column of the top-links query: this link's
clicks within the trailing 7 days. -/
def recentCount (db : DBState) (now : Nat) (linkId : String) : Nat :=
  (db.clicks.filter (fun c =>
    c.link_id == linkId && now - recentWindow ≤ c.clicked_at)).length

/-- `ORDER BY recent_clicks DESC, l.click_count DESC` as a relation on
link rows. -/
def topLinkRel (db : DBState) (now : Nat) (a b : Link) : Prop :=
  recentCount db now b.id < recentCount db now a.id ∨
    (recentCount db now a.id = recentCount db now b.id ∧ b.click_count ≤ a.click_count)

instance (db : DBState) (now : Nat) : DecidableRel (topLinkRel db now) :=
  fun a b => by unfold topLinkRel; exact inferInstance

instance (db : DBState) (now : Nat) : IsTotal Link (topLinkRel db now) :=
  ⟨fun a b => by unfold topLinkRel; omega⟩

instance (db : DBState) (now : Nat) : IsTrans Link (topLinkRel db now) :=
  ⟨fun a b c hab hbc => by
    unfold topLinkRel at hab hbc ⊢
    omega⟩

/-- The `topLinks` query of `getGlobalAnalytics` (database.ts lines
254-261): all link rows ranked by 7-day click count descending, ties by
all-time `click_count` descending, first 5. -/
def topLinks (db : DBState) (now : Nat) : List Link :=
  (List.insertionSort (topLinkRel db now) db.links).take 5

/-- The `recentClicks` query of `getGlobalAnalytics` (database.ts lines
246-252): clicks joined with their link's name and short code, most
recent first, first 10. -/
def recentClicksJoined (db : DBState) : List (Click × String × String) :=
  ((List.insertionSort clickDesc db.clicks).filterMap (fun c =>
    (db.links.find? (fun l => l.id == c.link_id)).map
      (fun l => (c, l.name, l.short_code)))).take 10

/-- Result record of `getGlobalAnalytics`. -/
structure GlobalAnalytics where
  totalLinks : Nat
  totalClicks : Nat
  recentClicks : List (Click × String × String)
  topLinks : List Link
deriving DecidableEq, Repr

/-- `getGlobalAnalytics` (database.ts lines 240-269). -/
def getGlobalAnalytics (db : DBState) (now : Nat) : GlobalAnalytics :=
  { totalLinks := db.links.length
    totalClicks := db.clicks.length
    recentClicks := recentClicksJoined db
    topLinks := topLinks db now }

/-! ## Route handlers -/

/-- Well-formedness invariants the SQLite schema enforces on `links`:
`id` is a PRIMARY KEY and `short_code` is UNIQUE. -/
def DBWF (db : DBState) : Prop :=
  db.links.Pairwise (fun a b => a.id ≠ b.id) ∧
    db.links.Pairwise (fun a b => a.short_code ≠ b.short_code)

/-- Responses of the tracking endpoint `GET /track/[shortCode]`. -/
inductive TrackResponse where
  /-- 404 JSON `Link not found`. -/
  | notFound : TrackResponse
  /-- HTTP 302 redirect to the given URL. -/
  | redirect (url : String) : TrackResponse
  /-- 500 JSON `Tracking failed`. -/
  | trackingFailed : TrackResponse
deriving DecidableEq, Repr

/-- Exception oracle for the tracking handler's `try` block.  `thrown
dbAtCatch fallbackThrows` models an exception raised after the
short-code lookup succeeded: `dbAtCatch` is the database state visible
to the `catch` block (the interrupted step may have completed zero or
more of the two tracking writes), and `fallbackThrows` tells whether
the bare re-lookup inside the `catch` itself throws. -/
inductive TrackFault where
  | ok : TrackFault
  | thrown (dbAtCatch : DBState) (fallbackThrows : Bool) : TrackFault

/-- The tracking handler `GET` (track/[shortCode]/route.ts lines
90-140): lookup, client-metadata extraction, geolocation, click
recording, redirect; on an exception, a bare lookup-and-redirect
fallback, and a 500 only when that also fails. -/
def trackGET (db : DBState) (shortCode : String) (hdrs : List (String × String))
    (geo : GeoOracle) (now : Nat) (fault : TrackFault) : TrackResponse × DBState :=
  match getLinkByShortCode db shortCode with
  | none => (.notFound, db)
  | some link =>
    match fault with
    | .ok =>
      let ip := (getClientIP hdrs).getD "127.0.0.1"
      let userAgent := headerGet hdrs "user-agent"
      let referer := sanitizeReferer (headerGet hdrs "referer")
      let locationData := (getLocationFromIP ip geo).1
      let db1 := recordClick db link.id (some ip) locationData userAgent referer now
      (.redirect link.original_url, db1)
    | .thrown dbAtCatch fallbackThrows =>
      if fallbackThrows then (.trackingFailed, dbAtCatch)
      else
        match getLinkByShortCode dbAtCatch shortCode with
        | some l => (.redirect l.original_url, dbAtCatch)
        | none => (.trackingFailed, dbAtCatch)

/-- Request body of `POST /api/links` as seen after `request.json()`:
either malformed JSON (`json()` throws, a non-Zod error) or a JSON
object whose `name` / `originalUrl` string fields may be missing. -/
inductive ReqBody where
  | malformed : ReqBody
  | fields (name : Option String) (originalUrl : Option String) : ReqBody

/-- zod `z.string().min(1).max(100)`: JavaScript string length counted
here in characters. -/
def validName (name : String) : Bool :=
  1 ≤ name.data.length && name.data.length ≤ 100

/-- zod `z.string().url()`: the value must parse as a URL. -/
def validOriginalUrl (url : String) : Bool :=
  (parseURL url).isSome

/-- Responses of `POST /api/links`. -/
inductive PostResponse where
  /-- 201 with the created link and its computed tracking URL. -/
  | created (link : Link) (trackingUrl : String) : PostResponse
  /-- 400 `Invalid input` with field-level Zod error details. -/
  | invalidInput : PostResponse
  /-- 500 `Failed to create link`. -/
  | serverError : PostResponse
deriving DecidableEq, Repr

/-- The `POST` handler (api/links/route.ts lines 24-54). -/
def postLinks (db : DBState) (body : ReqBody) (genId genShort : String)
    (now : Nat) (origin : String) : PostResponse × DBState :=
  match body with
  | .malformed => (.serverError, db)
  | .fields n u =>
    match n, u with
    | some name, some url =>
      if validName name && validOriginalUrl url then
        match createLink db name url genId genShort now with
        | .ok (link, db1) => (.created link (origin ++ "/track/" ++ link.short_code), db1)
        | .error _ => (.serverError, db)
      else (.invalidInput, db)
    | _, _ => (.invalidInput, db)

/-- Responses of `DELETE /api/links`. -/
inductive DeleteResponse where
  /-- 400 `Link ID is required`. -/
  | missingId : DeleteResponse
  /-- 200 `success: true`. -/
  | ok : DeleteResponse
  /-- 404 `Link not found`. -/
  | notFoundLink : DeleteResponse
deriving DecidableEq, Repr

/-- The `DELETE` handler (api/links/route.ts lines 56-86): JavaScript
`if (!linkId)` treats both an absent and an empty `id` query parameter
as missing. -/
def deleteEndpoint (db : DBState) (idParam : Option String) : DeleteResponse × DBState :=
  match idParam with
  | none => (.missingId, db)
  | some id =>
    if id = "" then (.missingId, db)
    else
      let r := deleteLink db id
      if r.1 then (.ok, r.2) else (.notFoundLink, r.2)

/-! ## Verified properties -/

/-- C3: for every IP string that is empty, equal to `127.0.0.1` or
`::1`, or beginning with `192.168.`, `10.`, or `172.`, the geolocation
resolver returns the Local sentinel (country, city and region all
`Local`, coordinates null) and performs zero outbound network calls. -/
theorem getLocationFromIP_local_sentinel (ip : String) (g : GeoOracle)
    (h : ip = "" ∨ ip = "127.0.0.1" ∨ ip = "::1" ∨
      strStartsWith ip "192.168." = true ∨ strStartsWith ip "10." = true ∨
      strStartsWith ip "172." = true) :
    getLocationFromIP ip g =
      ({ country := some "Local", city := some "Local", region := some "Local",
         latitude := none, longitude := none }, 0) := by
  have hloc : isLocalIP ip = true := by
    unfold isLocalIP
    rcases h with h | h | h | h | h | h <;> simp [h]
  simp [getLocationFromIP, hloc, localLocation]

/-- C3 witness: the resolver at the private address `10.0.0.1`, with an
oracle whose services would both answer. -/
theorem getLocationFromIP_local_sentinel_witness :
    getLocationFromIP "10.0.0.1"
      { primary := .okData { country_name := some "X", city := none, region := none,
                             latitude := none, longitude := none },
        secondary := .threw } =
      ({ country := some "Local", city := some "Local", region := some "Local",
         latitude := none, longitude := none }, 0) :=
  getLocationFromIP_local_sentinel "10.0.0.1"
    { primary := .okData { country_name := some "X", city := none, region := none,
                           latitude := none, longitude := none },
      secondary := .threw }
    (Or.inr (Or.inr (Or.inr (Or.inr (Or.inl (by decide))))))

/-- C2: for a non-local IP, whenever the primary lookup fails (thrown
error, non-OK response, or reported error field) the resolver performs
the secondary call (two outbound calls in total); if the secondary also
fails the result is exactly the Unknown sentinel, and if the secondary
succeeds the result is exactly the field mapping of the successful
secondary payload — never partial data from a failed attempt. -/
theorem getLocationFromIP_fallback (ip : String) (g : GeoOracle)
    (hl : isLocalIP ip = false) (hp : primaryFailed g.primary = true) :
    (getLocationFromIP ip g).2 = 2 ∧
    (secondaryFailed g.secondary = true →
      getLocationFromIP ip g =
        ({ country := some "Unknown", city := some "Unknown",
           region := some "Unknown", latitude := none, longitude := none }, 2)) ∧
    (∀ d, g.secondary = .okSuccess d →
      getLocationFromIP ip g = (mapSecondary d, 2)) := by
  have key : getLocationFromIP ip g =
      (match g.secondary with
       | .okSuccess d => (mapSecondary d, 2)
       | _ => (unknownLocation, 2)) := by
    unfold getLocationFromIP
    rw [if_neg (by simp [hl])]
    cases hpr : g.primary
    case okData d => rw [hpr] at hp; simp [primaryFailed] at hp
    all_goals rfl
  refine ⟨?_, ?_, ?_⟩
  · rw [key]; cases g.secondary <;> rfl
  · intro hs
    rw [key]
    cases hsr : g.secondary
    case okSuccess d => rw [hsr] at hs; simp [secondaryFailed] at hs
    all_goals simp [unknownLocation]
  · intro d hd
    rw [key, hd]

/-- C2 witness: primary threw, secondary not OK, for the public address
`8.8.8.8`. -/
theorem getLocationFromIP_fallback_witness :
    isLocalIP "8.8.8.8" = false ∧
    getLocationFromIP "8.8.8.8" { primary := .threw, secondary := .notOk } =
      ({ country := some "Unknown", city := some "Unknown",
         region := some "Unknown", latitude := none, longitude := none }, 2) :=
  ⟨by decide,
    (getLocationFromIP_fallback "8.8.8.8" { primary := .threw, secondary := .notOk }
      (by decide) rfl).2.1 rfl⟩

/-- The header loop of `getClientIP` is the first-accepted-candidate
search over the given header list. -/
theorem getClientIPFrom_eq_findSome? (hs : List String) (hdrs : List (String × String)) :
    getClientIPFrom hs hdrs = hs.findSome? (fun h =>
      (headerGet hdrs h).bind (fun v =>
        if isValidIP (firstHeaderToken v) then some (firstHeaderToken v) else none)) := by
  induction hs with
  | nil => rfl
  | cons h rest ih =>
    rw [List.findSome?_cons]
    unfold getClientIPFrom
    cases hv : headerGet hdrs h with
    | none => simpa using ih
    | some v =>
      by_cases hemp : v = ""
      · subst hemp
        have hval : isValidIP (firstHeaderToken "") = false := by decide
        simp [hval, ih]
      · by_cases hip : isValidIP (firstHeaderToken v) = true
        · simp [hemp, hip]
        · simp [hemp, hip, ih]

/-- C5: client-IP extraction agrees with its specification: walk the
fixed priority-ordered proxy-header list; for each present header take
the first comma-separated token, trim it, accept it only if it matches
the IPv4 pattern or the strict 8-group IPv6 pattern; return the first
accepted value, else null — with no fallback to a raw socket address. -/
theorem getClientIP_eq_clientIPSpec :
    ∀ hdrs, getClientIP hdrs = clientIPSpec hdrs :=
  fun hdrs => getClientIPFrom_eq_findSome? possibleHeaders hdrs

/-- C6: referer sanitization parses the referer as a URL, strips the
query string, and returns the serialized URL; absent input and inputs
that fail to parse give null; on the two reference inputs it yields
`https://ref.com/page` and null respectively. -/
theorem sanitizeReferer_spec :
    (∀ r u, parseURL r = some u →
      sanitizeReferer (some r) = some (serializeURL { u with search := "" })) ∧
    (∀ r, parseURL r = none → sanitizeReferer (some r) = none) ∧
    sanitizeReferer none = none ∧
    sanitizeReferer (some "https://ref.com/page?token=secret") = some "https://ref.com/page" ∧
    sanitizeReferer (some "not-a-url") = none := by
  have hred : ∀ r : String, sanitizeReferer (some r) =
      if r = "" then none
      else
        match parseURL r with
        | none => none
        | some u => some (serializeURL { u with search := "" }) :=
    fun r => rfl
  refine ⟨?_, ?_, rfl, by decide, by decide⟩
  · intro r u hparse
    rw [hred]
    by_cases hr : r = ""
    · subst hr
      have h0 : parseURL "" = none := by decide
      rw [h0] at hparse
      cases hparse
    · rw [if_neg hr, hparse]
  · intro r hparse
    rw [hred]
    by_cases hr : r = ""
    · simp [hr]
    · rw [if_neg hr, hparse]

/-- C6 witness: a URL with both a query and a fragment. -/
theorem sanitizeReferer_spec_witness :
    sanitizeReferer (some "https://a.io/p?q=1#f") = some "https://a.io/p#f" :=
  sanitizeReferer_spec.1 "https://a.io/p?q=1#f"
    { scheme := "https", host := "a.io", path := "/p", search := "?q=1", hash := "#f" }
    (by decide)

/-- A sample link row used by concrete witnesses. -/
def sampleLink : Link :=
  { id := "L1", name := "Blog", original_url := "https://example.com",
    short_code := "abc12345", created_at := 100, click_count := 0 }

/-- A sample click row owned by `sampleLink`. -/
def sampleClick : Click :=
  { id := 0, link_id := "L1", ip_address := some "8.8.8.8",
    country := some "US", city := none, region := none, latitude := none,
    longitude := none, user_agent := none, referer := none, clicked_at := 150 }

/-- A sample database with one link and one click. -/
def sampleDB : DBState :=
  { links := [sampleLink], clicks := [sampleClick], nextClickId := 1 }

/-- C7: for a non-empty id parameter, the DELETE endpoint answers
success exactly when some link row has that id (404 exactly otherwise),
and in the resulting state the surviving clicks are exactly the
original clicks of other links and the surviving links are exactly the
original links with other ids — so after a successful delete no clicks
of the deleted link remain. -/
theorem deleteEndpoint_spec (db : DBState) (id : String) (hid : id ≠ "") :
    ((deleteEndpoint db (some id)).1 = .ok ↔ ∃ l ∈ db.links, l.id = id) ∧
    ((deleteEndpoint db (some id)).1 = .notFoundLink ↔ ¬∃ l ∈ db.links, l.id = id) ∧
    (∀ c, c ∈ (deleteEndpoint db (some id)).2.clicks ↔ c ∈ db.clicks ∧ c.link_id ≠ id) ∧
    (∀ l, l ∈ (deleteEndpoint db (some id)).2.links ↔ l ∈ db.links ∧ l.id ≠ id) := by
  by_cases hex : ∃ l ∈ db.links, l.id = id
  · have hany : db.links.any (fun l => l.id == id) = true := by
      rw [List.any_eq_true]
      rcases hex with ⟨l, hl, hlid⟩
      exact ⟨l, hl, by simp [hlid]⟩
    have hres : deleteEndpoint db (some id) =
        (.ok, { db with clicks := db.clicks.filter (fun c => c.link_id != id),
                        links := db.links.filter (fun l => l.id != id) }) := by
      simp [deleteEndpoint, deleteLink, hid, hany]
    rw [hres]
    refine ⟨by simp [hex], by simp [hex], ?_, ?_⟩
    · intro c; simp [List.mem_filter, bne_iff_ne]
    · intro l; simp [List.mem_filter, bne_iff_ne]
  · have hany : db.links.any (fun l => l.id == id) = false := by
      rw [List.any_eq_false]
      intro l hl
      simp only [beq_iff_eq]
      exact fun h => hex ⟨l, hl, h⟩
    have hres : deleteEndpoint db (some id) =
        (.notFoundLink, { db with clicks := db.clicks.filter (fun c => c.link_id != id),
                                  links := db.links.filter (fun l => l.id != id) }) := by
      simp [deleteEndpoint, deleteLink, hid, hany]
    rw [hres]
    refine ⟨by simp [hex], by simp [hex], ?_, ?_⟩
    · intro c; simp [List.mem_filter, bne_iff_ne]
    · intro l; simp [List.mem_filter, bne_iff_ne]

/-- C7 witness: deleting `sampleLink` from `sampleDB` succeeds and no
click of that link survives. -/
theorem deleteEndpoint_spec_witness :
    "L1" ≠ "" ∧ (deleteEndpoint sampleDB (some "L1")).1 = .ok ∧
    ∀ c ∈ (deleteEndpoint sampleDB (some "L1")).2.clicks, c.link_id ≠ "L1" :=
  let h := deleteEndpoint_spec sampleDB "L1" (by decide)
  ⟨by decide, h.1.mpr ⟨sampleLink, by decide, rfl⟩,
    fun c hc => ((h.2.2.1 c).mp hc).2⟩

/-- In a list of links with pairwise-distinct ids, `find?` by a
member's id returns exactly that member. -/
theorem find?_id_of_pairwise_ne {l : List Link}
    (hwf : l.Pairwise (fun a b => a.id ≠ b.id)) {x : Link} (hx : x ∈ l) :
    l.find? (fun y => y.id == x.id) = some x := by
  induction l with
  | nil => cases hx
  | cons a t ih =>
    rcases List.mem_cons.mp hx with rfl | hxt
    · exact List.find?_cons_of_pos t (by simp)
    · have hne : a.id ≠ x.id := (List.pairwise_cons.mp hwf).1 x hxt
      rw [List.find?_cons_of_neg t (by simp [hne])]
      exact ih (List.pairwise_cons.mp hwf).2 hxt

/-- C1: when the short code resolves to a link and no step throws, the
tracking handler appends exactly one click row (owned by that link) to
the clicks table, the link is afterwards read back with its
denormalized `click_count` incremented by exactly 1, every other link
row is untouched, and the response is an HTTP 302 redirect to the
link's `original_url`. -/
theorem trackGET_happy (db : DBState) (shortCode : String)
    (hdrs : List (String × String)) (geo : GeoOracle) (now : Nat) (link : Link)
    (hwf : DBWF db) (hfind : getLinkByShortCode db shortCode = some link) :
    (trackGET db shortCode hdrs geo now .ok).1 = .redirect link.original_url ∧
    (∃ c : Click, (trackGET db shortCode hdrs geo now .ok).2.clicks = db.clicks ++ [c] ∧
      c.link_id = link.id) ∧
    getLinkById (trackGET db shortCode hdrs geo now .ok).2 link.id =
      some { link with click_count := link.click_count + 1 } ∧
    (∀ l ∈ db.links, l.id ≠ link.id → l ∈ (trackGET db shortCode hdrs geo now .ok).2.links) := by
  have hred : trackGET db shortCode hdrs geo now .ok =
      (.redirect link.original_url,
        recordClick db link.id (some ((getClientIP hdrs).getD "127.0.0.1"))
          ((getLocationFromIP ((getClientIP hdrs).getD "127.0.0.1") geo).1)
          (headerGet hdrs "user-agent") (sanitizeReferer (headerGet hdrs "referer")) now) := by
    unfold trackGET
    rw [hfind]
  rw [hred]
  have hlinks : ∀ (x : DBState) (ip : Option String) (loc : LocationData)
      (ua ref : Option String),
      (recordClick x link.id ip loc ua ref now).links =
        x.links.map (fun l =>
          if l.id == link.id then { l with click_count := l.click_count + 1 } else l) :=
    fun _ _ _ _ _ => rfl
  refine ⟨rfl, ⟨_, rfl, rfl⟩, ?_, ?_⟩
  · show (recordClick db link.id _ _ _ _ now).links.find? (fun y => y.id == link.id) = _
    rw [hlinks, List.find?_map]
    have hcomp : ((fun y : Link => y.id == link.id) ∘
        (fun l => if l.id == link.id then { l with click_count := l.click_count + 1 } else l)) =
        (fun y : Link => y.id == link.id) := by
      funext y
      by_cases h : y.id = link.id <;> simp [h]
    rw [hcomp,
      find?_id_of_pairwise_ne hwf.1 (List.mem_of_find?_eq_some hfind)]
    simp
  · intro l hl hne
    rw [hlinks]
    exact List.mem_map.mpr ⟨l, hl, by simp [hne]⟩

/-- C1 witness: one visit on the sample database. -/
theorem trackGET_happy_witness :
    (trackGET sampleDB "abc12345" [] { primary := .threw, secondary := .threw } 200 .ok).1 =
      .redirect "https://example.com" ∧
    getLinkById
      (trackGET sampleDB "abc12345" [] { primary := .threw, secondary := .threw } 200 .ok).2
      "L1" =
      some { id := "L1", name := "Blog", original_url := "https://example.com",
             short_code := "abc12345", created_at := 100, click_count := 1 } :=
  let h := trackGET_happy sampleDB "abc12345" [] { primary := .threw, secondary := .threw }
    200 sampleLink (by constructor <;> exact List.pairwise_singleton _ _) (by decide)
  ⟨h.1, h.2.2.1⟩

/-- C4: when an exception occurs after a successful short-code lookup,
the handler responds from its catch block: it re-looks the code up
(against the state visible at catch time) and redirects to the found
link's `original_url` without performing any further write, and it
answers the 500 tracking-failure error exactly when that fallback
lookup itself throws or finds no link. -/
theorem trackGET_catch (db dbAtCatch : DBState) (shortCode : String)
    (hdrs : List (String × String)) (geo : GeoOracle) (now : Nat)
    (link : Link) (fb : Bool)
    (hfind : getLinkByShortCode db shortCode = some link) :
    ((trackGET db shortCode hdrs geo now (.thrown dbAtCatch fb)).1 = .trackingFailed ↔
      (fb = true ∨ getLinkByShortCode dbAtCatch shortCode = none)) ∧
    (∀ l, fb = false → getLinkByShortCode dbAtCatch shortCode = some l →
      trackGET db shortCode hdrs geo now (.thrown dbAtCatch fb) =
        (.redirect l.original_url, dbAtCatch)) := by
  have hred : trackGET db shortCode hdrs geo now (.thrown dbAtCatch fb) =
      (if fb then (.trackingFailed, dbAtCatch)
       else
         match getLinkByShortCode dbAtCatch shortCode with
         | some l => (.redirect l.original_url, dbAtCatch)
         | none => (.trackingFailed, dbAtCatch)) := by
    unfold trackGET
    rw [hfind]
  rw [hred]
  cases fb
  · cases hlook : getLinkByShortCode dbAtCatch shortCode with
    | none => simp
    | some l =>
      refine ⟨by simp, ?_⟩
      intro l' _ hl'
      injection hl' with heq
      subst heq
      simp
  · simp

/-- C4 witness: a fault after the lookup on the sample database, with a
non-throwing fallback. -/
theorem trackGET_catch_witness :
    trackGET sampleDB "abc12345" [] { primary := .threw, secondary := .threw } 200
      (.thrown sampleDB false) = (.redirect "https://example.com", sampleDB) :=
  (trackGET_catch sampleDB sampleDB "abc12345" []
      { primary := .threw, secondary := .threw } 200 sampleLink false (by decide)).2
    sampleLink rfl (by decide)

/-- C8: in every database state the global summary's `totalClicks` is
the number of rows of the clicks table, and `topLinks` is a first-5
selection of the link rows ordered primarily by trailing-7-day click
count descending and secondarily by all-time `click_count` descending:
it has `min 5 n` entries, is internally ordered by that key, and every
selected link dominates every unselected link under that key. -/
theorem getGlobalAnalytics_spec (db : DBState) (now : Nat) :
    (getGlobalAnalytics db now).totalClicks = db.clicks.length ∧
    (getGlobalAnalytics db now).topLinks.length = min 5 db.links.length ∧
    List.Pairwise (fun a b =>
        recentCount db now b.id < recentCount db now a.id ∨
          (recentCount db now a.id = recentCount db now b.id ∧ b.click_count ≤ a.click_count))
      (getGlobalAnalytics db now).topLinks ∧
    ∃ rest : List Link,
      db.links.Perm ((getGlobalAnalytics db now).topLinks ++ rest) ∧
      ∀ a ∈ (getGlobalAnalytics db now).topLinks, ∀ b ∈ rest,
        recentCount db now b.id < recentCount db now a.id ∨
          (recentCount db now a.id = recentCount db now b.id ∧ b.click_count ≤ a.click_count) := by
  have htop : (getGlobalAnalytics db now).topLinks =
      (List.insertionSort (topLinkRel db now) db.links).take 5 := rfl
  have hsorted : List.Sorted (topLinkRel db now)
      (List.insertionSort (topLinkRel db now) db.links) :=
    List.sorted_insertionSort (topLinkRel db now) db.links
  refine ⟨rfl, ?_, ?_, ?_⟩
  · rw [htop, List.length_take, List.length_insertionSort]
  · rw [htop]
    exact List.Pairwise.sublist (List.take_sublist 5 _) hsorted
  · refine ⟨(List.insertionSort (topLinkRel db now) db.links).drop 5, ?_, ?_⟩
    · rw [htop, List.take_append_drop]
      exact (List.perm_insertionSort _ _).symm
    · intro a ha b hb
      exact hsorted.rel_of_mem_take_of_mem_drop (htop ▸ ha) hb

/-- C10: the per-link summary's `totalClicks` is the number of click
rows whose `link_id` is the requested id — computed from the fetched
click list, independently of the link's denormalized `click_count` —
and the two values do diverge in some states (here: a link whose
counter says 5 while no click rows exist). -/
theorem getLinkAnalytics_totalClicks :
    (∀ (db : DBState) (now : Nat) (linkId : String),
      (getLinkAnalytics db now linkId).totalClicks =
        (db.clicks.filter (fun c => c.link_id == linkId)).length) ∧
    ∃ (db : DBState) (now : Nat) (linkId : String) (link : Link),
      getLinkById db linkId = some link ∧
      link.click_count ≠ (getLinkAnalytics db now linkId).totalClicks := by
  constructor
  · intro db now linkId
    show (getClicksByLinkId db linkId).length = _
    unfold getClicksByLinkId
    exact List.length_insertionSort _ _
  · exact ⟨{ links := [{ sampleLink with click_count := 5 }], clicks := [], nextClickId := 0 },
      0, "L1", { sampleLink with click_count := 5 }, by decide, by decide⟩

/-- An empty database, used by the link-creation witness. -/
def emptyDB : DBState :=
  { links := [], clicks := [], nextClickId := 0 }

/-- Appending a link whose short code is fresh makes it retrievable by
that short code. -/
theorem getLinkByShortCode_append_fresh (db : DBState) (link : Link)
    (h : ∀ l ∈ db.links, l.short_code ≠ link.short_code) :
    getLinkByShortCode { db with links := db.links ++ [link] } link.short_code =
      some link := by
  unfold getLinkByShortCode
  rw [List.find?_append]
  have hnone : db.links.find? (fun l => l.short_code == link.short_code) = none := by
    rw [List.find?_eq_none]
    intro l hl
    simp [h l hl]
  rw [hnone]
  simp

/-- C9 (amended): for a creation request with a valid name (1-100
characters) and an originalUrl that parses as a URL, provided the two
freshly drawn nanoid values do not collide with any existing link's id
or short code, the endpoint persists exactly one new link carrying the
8-character short code, that short code is unique among the previously
existing links, the new link is immediately retrievable by it, and the
201 response carries the link and its computed tracking URL; every
request failing validation gets the 400 invalid-input response with
nothing persisted. -/
theorem postLinks_spec :
    (∀ (db : DBState) (name url genId genShort : String) (now : Nat) (origin : String),
      validName name = true → validOriginalUrl url = true →
      (∀ l ∈ db.links, l.id ≠ genId ∧ l.short_code ≠ genShort) →
      genShort.data.length = 8 →
      ∃ link : Link,
        postLinks db (.fields (some name) (some url)) genId genShort now origin =
          (.created link (origin ++ "/track/" ++ link.short_code),
           { db with links := db.links ++ [link] }) ∧
        link.name = name ∧ link.original_url = url ∧
        link.short_code = genShort ∧ link.short_code.data.length = 8 ∧
        (∀ l ∈ db.links, l.short_code ≠ link.short_code) ∧
        getLinkByShortCode { db with links := db.links ++ [link] } link.short_code =
          some link) ∧
    (∀ (db : DBState) (n u : Option String) (genId genShort : String) (now : Nat)
        (origin : String),
      (match n, u with
       | some name, some url => validName name && validOriginalUrl url
       | _, _ => false) = false →
      postLinks db (.fields n u) genId genShort now origin = (.invalidInput, db)) := by
  constructor
  · intro db name url genId genShort now origin hname hurl hfresh hlen
    have hany : db.links.any (fun l => l.id == genId || l.short_code == genShort) = false := by
      rw [List.any_eq_false]
      intro l hl
      simp [(hfresh l hl).1, (hfresh l hl).2]
    refine ⟨{ id := genId, name := name, original_url := url, short_code := genShort,
              created_at := now, click_count := 0 }, ?_, rfl, rfl, rfl, hlen,
            fun l hl => (hfresh l hl).2, ?_⟩
    · unfold postLinks createLink
      simp [hname, hurl, hany]
    · exact getLinkByShortCode_append_fresh db _ (fun l hl => (hfresh l hl).2)
  · intro db n u genId genShort now origin hval
    cases n with
    | none => cases u <;> rfl
    | some name =>
      cases u with
      | none => rfl
      | some url =>
        have hv : (validName name && validOriginalUrl url) = false := hval
        unfold postLinks
        simp [hv]

/-- C9 witness: creating a link in the empty database. -/
theorem postLinks_spec_witness :
    ∃ link : Link,
      postLinks emptyDB (.fields (some "Blog") (some "https://example.com"))
          "id1" "zzzz9999" 100 "http://localhost:3000" =
        (.created link ("http://localhost:3000" ++ "/track/" ++ link.short_code),
         { emptyDB with links := emptyDB.links ++ [link] }) ∧
      link.name = "Blog" ∧ link.original_url = "https://example.com" ∧
      link.short_code = "zzzz9999" ∧ link.short_code.data.length = 8 ∧
      (∀ l ∈ emptyDB.links, l.short_code ≠ link.short_code) ∧
      getLinkByShortCode { emptyDB with links := emptyDB.links ++ [link] }
        link.short_code = some link :=
  postLinks_spec.1 emptyDB "Blog" "https://example.com" "id1" "zzzz9999" 100
    "http://localhost:3000" (by decide) (by decide)
    (fun l hl => absurd hl (by simp [emptyDB])) (by decide)

/-- C9 counterexample: a fully valid creation request whose freshly
drawn short code equals the existing link's `abc12345`; the INSERT's
UNIQUE constraint fires, the endpoint answers the 500 server error, and
no link is created — so creation does not succeed for every valid
request, contrary to the claim. -/
theorem postLinks_collision :
    validName "Blog" = true ∧ validOriginalUrl "https://example.com" = true ∧
    postLinks sampleDB (.fields (some "Blog") (some "https://example.com"))
      "newid" "abc12345" 200 "http://localhost:3000" = (.serverError, sampleDB) :=
  ⟨by decide, by decide, by decide⟩
